import Mathlib

/-!
# ad_converter: joystick sampling, viewport mapping and debounced buttons

A shallow embedding of `src/ad_converter.c`.  The global variables of the
program (`last_time`, `pwm_state`, `border_x_max`, `border_y_max`, the static
`current_border` of `switch_borders`) and the peripherals it drives (green LED
pin, the two PWM levels, the display buffer, the serial output, the USB-boot
reset) are the fields of `State`; every C function that touches them becomes a
function `State → ... → State`.  Values read from the hardware (the
microsecond timer, the two ADC channels) are arguments.

Machine integers are `Nat`/`Int` with the reductions written out:
`uint16_t`/`uint32_t`/`uint8_t` values are reduced modulo `2^16`/`2^32`/`2^8`,
and a 32-bit signed product is passed through `toInt32`.
-/

namespace AdConverter

/-! ## Machine integers -/

/-- Two's-complement value of a 32-bit signed result (`int`, `int32_t`). -/
def toInt32 (x : Int) : Int := (x + 2147483648) % 4294967296 - 2147483648

/-- Conversion of an integer to `uint16_t`. -/
def toUInt16 (x : Int) : Nat := (x % 65536).toNat

/-- Conversion of an unsigned value to `uint32_t` (low 32 bits). -/
def toUInt32 (x : Nat) : Nat := x % 4294967296

/-- Subtraction `a - b` of two `uint32_t` values, modulo `2^32`. -/
def subUInt32 (a b : Nat) : Nat :=
  (a % 4294967296 + (4294967296 - b % 4294967296)) % 4294967296

/-! ## Constants of the program -/

/-- Pin of the green LED (`led_pin_green`). -/
def led_pin_green : Nat := 11

/-- Pin of the joystick button (`btn_j`). -/
def btn_j : Nat := 22

/-- Pin of button A (`btn_a`). -/
def btn_a : Nat := 5

/-- Pin of button B (`btn_b`). -/
def btn_b : Nat := 6

/-! ## State -/

/-- One call of `ssd1306_rect(&ssd, top, left, width, height, true, fill)`. -/
structure Rect where
  top : Int
  left : Int
  width : Int
  height : Int
  fill : Bool
  deriving DecidableEq

/-- Globals of the program together with the peripherals it writes. -/
structure State where
  /-- `uint32_t last_time`: time of the last accepted button event. -/
  last_time : Nat
  /-- `static volatile bool pwm_state`. -/
  pwm_state : Bool
  /-- `static volatile uint16_t border_x_max`. -/
  border_x_max : Nat
  /-- `static volatile uint16_t border_y_max`. -/
  border_y_max : Nat
  /-- `static uint8_t current_border` of `switch_borders`. -/
  current_border : Nat
  /-- Output level of the green LED pin, as read by `gpio_get`. -/
  led_green : Bool
  /-- Level last written to the red LED by `pwm_set_gpio_level`. -/
  level_red : Nat
  /-- Level last written to the blue LED by `pwm_set_gpio_level`. -/
  level_blue : Nat
  /-- Rectangles of the buffer last sent to the display, in drawing order. -/
  display : List Rect
  /-- Lines written by `printf`, oldest first. -/
  stdout : List String
  /-- Whether `reset_usb_boot` has been called. -/
  usb_boot : Bool
  deriving DecidableEq

/-- State when `main` enters its loop: the initialisers of the globals, the
LED pin low after `gpio_init`, PWM levels zero, display cleared. -/
def init : State :=
  { last_time := 0
    pwm_state := true
    border_x_max := 128
    border_y_max := 64
    current_border := 0
    led_green := false
    level_red := 0
    level_blue := 0
    display := []
    stdout := []
    usb_boot := false }

/-! ## Functions of the program -/

/-- `uint16_t set_led_brightness(uint16_t adc_value)`. -/
def set_led_brightness (adc_value : Nat) : Nat :=
  let centered_value : Int := toInt32 (((adc_value % 65536 : Nat) : Int) - 2048)
  let abs_value : Int := toInt32 (centered_value.natAbs : Int)
  let pwm_value : Nat := toUInt16 ((toInt32 (abs_value * abs_value)).tdiv 4095)
  pwm_value

/-- `void switch_borders()`. -/
def switch_borders (s : State) : State :=
  match s.current_border with
  | 0 => { s with border_x_max := 96, border_y_max := 48,
                  current_border := (s.current_border + 1) % 256 }
  | 1 => { s with border_x_max := 64, border_y_max := 32,
                  current_border := (s.current_border + 1) % 256 }
  | 2 => { s with border_x_max := 32, border_y_max := 16,
                  current_border := (s.current_border + 1) % 256 }
  | _ => { s with border_x_max := 128, border_y_max := 64, current_border := 0 }

/-- The value of `current_time - last_time` computed by `gpio_irq_handler`
when the timer returns `now`: a `uint32_t` difference. -/
def elapsed (s : State) (now : Nat) : Nat :=
  subUInt32 (toUInt32 now) s.last_time

/-- `void gpio_irq_handler(uint gpio, uint32_t events)`; `now` is the value
returned by `to_us_since_boot(get_absolute_time())`. -/
def gpio_irq_handler (s : State) (gpio events now : Nat) : State :=
  let _ := events
  let current_time := toUInt32 now
  if 250000 < subUInt32 current_time s.last_time then
    let s := { s with last_time := current_time }
    if gpio = btn_a then
      { s with stdout := s.stdout ++ ["Botão A pressionado!\n"],
               pwm_state := !s.pwm_state }
    else if gpio = btn_b then
      { s with stdout := s.stdout ++ ["Botão B pressionado!\n"],
               usb_boot := true }
    else if gpio = btn_j then
      switch_borders
        { s with stdout := s.stdout ++ ["Botão do joystick pressionado!\n"],
                 led_green := !s.led_green }
    else s
  else s

/-- `int map_adc_to_display(int adc_value, int max_adc, int max_display)`. -/
def map_adc_to_display (adc_value max_adc max_display : Int) : Int :=
  (toInt32 (adc_value * max_display)).tdiv max_adc

/-- The expression assigned to `display_x` in the loop of `main`. -/
def display_x (adc_value_x border_x_max : Nat) : Int :=
  map_adc_to_display adc_value_x 4095 ((border_x_max : Int) - 8)
    + (128 - (border_x_max : Int)).tdiv 2

/-- The expression assigned to `display_y` in the loop of `main`. -/
def display_y (adc_value_y border_y_max : Nat) : Int :=
  (border_y_max : Int) - 8
    - map_adc_to_display adc_value_y 4095 ((border_y_max : Int) - 8)
    + (64 - (border_y_max : Int)).tdiv 2

/-- One iteration of the `while (true)` loop of `main`; `adc_x` and `adc_y`
are the two values returned by `adc_read`. -/
def main_loop (s : State) (adc_x adc_y : Nat) : State :=
  let adc_value_x := adc_x % 65536
  let adc_value_y := adc_y % 65536
  let s :=
    if s.pwm_state = true then
      { s with level_red := set_led_brightness adc_value_x,
               level_blue := set_led_brightness adc_value_y }
    else s
  let dx := display_x adc_value_x s.border_x_max
  let dy := display_y adc_value_y s.border_y_max
  { s with display :=
      [ { top := dy, left := dx, width := 8, height := 8, fill := true },
        { top := (64 - (s.border_y_max : Int)).tdiv 2,
          left := (128 - (s.border_x_max : Int)).tdiv 2,
          width := s.border_x_max, height := s.border_y_max, fill := false } ] }

/-! ## Traces -/

/-- One invocation of the interrupt callback: its two arguments and the
timer value it reads. -/
structure Irq where
  gpio : Nat
  events : Nat
  now : Nat
  deriving DecidableEq

/-- What the running program does next: serve an interrupt or execute one
iteration of the main loop on two ADC readings. -/
inductive Event where
  | irq (i : Irq)
  | loop (adc_x adc_y : Nat)
  deriving DecidableEq

/-- The callback applied to one invocation record. -/
def handle (s : State) (i : Irq) : State :=
  gpio_irq_handler s i.gpio i.events i.now

/-- Effect of one event on the state. -/
def step (s : State) : Event → State
  | .irq i => handle s i
  | .loop x y => main_loop s x y

/-- Effect of a sequence of events, oldest first. -/
def run (s : State) (es : List Event) : State := es.foldl step s

/-- Effect of a sequence of callback invocations, oldest first. -/
def handle_all (s : State) (is : List Irq) : State := is.foldl handle s

/-- Timer values of the invocations that pass the debounce test, oldest
first, when the sequence is served from state `s`. -/
def accepted_times (s : State) : List Irq → List Nat
  | [] => []
  | i :: is =>
    if 250000 < elapsed s i.now then i.now :: accepted_times (handle s i) is
    else accepted_times (handle s i) is

/-- The four viewport sizes, in cycle order; entry `i` is the size that
`switch_borders` pairs with `current_border = i`. -/
def presets : List (Nat × Nat) := [(128, 64), (96, 48), (64, 32), (32, 16)]

/-- Viewport invariant: the size is the preset selected by `current_border`. -/
def viewport_ok (s : State) : Prop :=
  presets[s.current_border]? = some (s.border_x_max, s.border_y_max)

/-- The quadratic response in the words of the specification:
`(d*d) / 4095` with `d = |v - 2048|`, on unbounded integers. -/
def quadratic_response (v : Nat) : Nat :=
  (((v : Int) - 2048).natAbs * ((v : Int) - 2048).natAbs) / 4095

/-- The value of the local variable `abs_value` of `set_led_brightness`. -/
def abs_value (adc_value : Nat) : Int :=
  toInt32 ((toInt32 (((adc_value % 65536 : Nat) : Int) - 2048)).natAbs : Int)

/-! ## Machine-integer lemmas -/

theorem toInt32_of_range (x : Int) (h0 : -2147483648 ≤ x) (h1 : x ≤ 2147483647) :
    toInt32 x = x := by
  unfold toInt32; omega

theorem subUInt32_of_le (a b : Nat) (hab : b ≤ a) (ha : a < 4294967296) :
    subUInt32 a b = a - b := by
  unfold subUInt32; omega

/-! ## Coordinate mapping -/

theorem map_adc_to_display_range (v r : Nat) (hv : v ≤ 4095) (hr : r ≤ 128) :
    0 ≤ map_adc_to_display v 4095 r ∧ map_adc_to_display v 4095 r ≤ r := by
  have hp : v * r ≤ 4095 * r := Nat.mul_le_mul_right r hv
  have hq : (v : Int) * (r : Int) = ((v * r : Nat) : Int) := by push_cast; ring
  unfold map_adc_to_display
  rw [hq]
  generalize v * r = p at hp
  rw [toInt32_of_range _ (by omega) (by omega),
    Int.tdiv_eq_ediv (by omega) (by omega)]
  omega

/-- C1: for samples `x`, `y` in `[0,4095]` and each of the four viewport
presets `(w,h)`, the marker position computed by the main loop keeps the 8x8
marker inside the viewport rectangle drawn at offset `((128-w)/2, (64-h)/2)`
with size `(w,h)`; the two rectangles sent to the display by an iteration in
a state with that viewport are exactly this marker and this border. -/
theorem marker_inside_viewport (s : State) (x y w h : Nat)
    (hx : x ≤ 4095) (hy : y ≤ 4095) (hp : (w, h) ∈ presets)
    (hs : s.border_x_max = w ∧ s.border_y_max = h) :
    (main_loop s x y).display =
        [ { top := display_y y h, left := display_x x w, width := 8, height := 8,
            fill := true },
          { top := (64 - (h : Int)) / 2, left := (128 - (w : Int)) / 2,
            width := w, height := h, fill := false } ]
      ∧ (128 - (w : Int)) / 2 ≤ display_x x w
      ∧ display_x x w + 8 ≤ (128 - (w : Int)) / 2 + w
      ∧ (64 - (h : Int)) / 2 ≤ display_y y h
      ∧ display_y y h + 8 ≤ (64 - (h : Int)) / 2 + h := by
  obtain ⟨hw, hh⟩ := hs
  have hx16 : x % 65536 = x := Nat.mod_eq_of_lt (by omega)
  have hy16 : y % 65536 = y := Nat.mod_eq_of_lt (by omega)
  have hwh : (w = 128 ∧ h = 64) ∨ (w = 96 ∧ h = 48) ∨ (w = 64 ∧ h = 32)
      ∨ (w = 32 ∧ h = 16) := by
    simpa [presets] using hp
  have hw8 : 8 ≤ w ∧ w ≤ 128 ∧ 8 ≤ h ∧ h ≤ 64 := by omega
  have hmx := map_adc_to_display_range x (w - 8) hx (by omega)
  have hmy := map_adc_to_display_range y (h - 8) hy (by omega)
  have hcw : (((w - 8 : Nat)) : Int) = (w : Int) - 8 := by omega
  have hch : (((h - 8 : Nat)) : Int) = (h : Int) - 8 := by omega
  rw [hcw] at hmx
  rw [hch] at hmy
  have hox : (128 - (w : Int)).tdiv 2 = (128 - (w : Int)) / 2 :=
    Int.tdiv_eq_ediv (by omega) (by omega)
  have hoy : (64 - (h : Int)).tdiv 2 = (64 - (h : Int)) / 2 :=
    Int.tdiv_eq_ediv (by omega) (by omega)
  refine ⟨?_, ?_, ?_, ?_, ?_⟩
  · simp only [main_loop, hx16, hy16]
    split <;> simp [hw, hh, hox, hoy]
  · unfold display_x; rw [hox]; omega
  · unfold display_x; rw [hox]; omega
  · unfold display_y; rw [hoy]; omega
  · unfold display_y; rw [hoy]; omega

theorem marker_inside_viewport_witness :
    (main_loop init 4095 0).display =
        [ { top := display_y 0 64, left := display_x 4095 128, width := 8,
            height := 8, fill := true },
          { top := (64 - ((64 : Nat) : Int)) / 2,
            left := (128 - ((128 : Nat) : Int)) / 2,
            width := (128 : Nat), height := (64 : Nat), fill := false } ]
      ∧ (128 - ((128 : Nat) : Int)) / 2 ≤ display_x 4095 128
      ∧ display_x 4095 128 + 8 ≤ (128 - ((128 : Nat) : Int)) / 2 + (128 : Nat)
      ∧ (64 - ((64 : Nat) : Int)) / 2 ≤ display_y 0 64
      ∧ display_y 0 64 + 8 ≤ (64 - ((64 : Nat) : Int)) / 2 + (64 : Nat) :=
  marker_inside_viewport init 4095 0 128 64 (by decide) (by decide) (by decide)
    ⟨rfl, rfl⟩

/-! ## Brightness curve -/

theorem set_led_brightness_eq (v : Nat) (hv : v ≤ 4095) :
    set_led_brightness v = quadratic_response v := by
  have hd : ((v : Int) - 2048).natAbs ≤ 2048 := by omega
  have hp : ((v : Int) - 2048).natAbs * ((v : Int) - 2048).natAbs ≤ 2048 * 2048 :=
    Nat.mul_le_mul hd hd
  have hv16 : v % 65536 = v := Nat.mod_eq_of_lt (by omega)
  have h1 : toInt32 ((v : Int) - 2048) = (v : Int) - 2048 :=
    toInt32_of_range _ (by omega) (by omega)
  have h2 : toInt32 (((v : Int) - 2048).natAbs : Int) = (((v : Int) - 2048).natAbs : Int) :=
    toInt32_of_range _ (by omega) (by omega)
  have hq : ((((v : Int) - 2048).natAbs : Int)) * ((((v : Int) - 2048).natAbs : Int))
      = (((((v : Int) - 2048).natAbs * ((v : Int) - 2048).natAbs : Nat)) : Int) := by
    push_cast; ring
  unfold set_led_brightness quadratic_response
  simp only [hv16, h1, h2]
  rw [hq]
  generalize ((v : Int) - 2048).natAbs * ((v : Int) - 2048).natAbs = p at hp
  rw [toInt32_of_range (p : Int) (by omega) (by omega),
    Int.tdiv_eq_ediv (by omega) (by omega)]
  unfold toUInt16
  omega

theorem quadratic_response_le (v : Nat) (hv : v ≤ 4095) :
    quadratic_response v ≤ 1024 := by
  have hd : ((v : Int) - 2048).natAbs ≤ 2048 := by omega
  have hp : ((v : Int) - 2048).natAbs * ((v : Int) - 2048).natAbs ≤ 2048 * 2048 :=
    Nat.mul_le_mul hd hd
  unfold quadratic_response
  generalize ((v : Int) - 2048).natAbs * ((v : Int) - 2048).natAbs = p at hp
  omega

/-- C2: for every raw sample `v` in `[0,4095]`, `set_led_brightness v` is a
brightness level in `[0,4095]`. -/
theorem set_led_brightness_range (v : Nat) (hv : v ≤ 4095) :
    0 ≤ set_led_brightness v ∧ set_led_brightness v ≤ 4095 := by
  have h := quadratic_response_le v hv
  rw [set_led_brightness_eq v hv]
  omega

theorem set_led_brightness_range_witness :
    0 ≤ set_led_brightness 0 ∧ set_led_brightness 0 ≤ 4095 :=
  set_led_brightness_range 0 (by decide)

/-- C3: for every raw sample `v` in `[0,4095]`, `set_led_brightness v` equals
`(d*d) / 4095` (truncating division) with `d = |v - 2048|`; the product `d*d`
fits a signed 32-bit integer, so the intermediate product is not wrapped, and
the quotient fits 16 bits, so the conversion to `uint16_t` keeps it. -/
theorem set_led_brightness_quadratic (v : Nat) (hv : v ≤ 4095) :
    set_led_brightness v
        = (((v : Int) - 2048).natAbs * ((v : Int) - 2048).natAbs) / 4095
      ∧ toInt32 ((((v : Int) - 2048).natAbs : Int) * (((v : Int) - 2048).natAbs : Int))
        = (((v : Int) - 2048).natAbs : Int) * (((v : Int) - 2048).natAbs : Int)
      ∧ (((v : Int) - 2048).natAbs : Int) * (((v : Int) - 2048).natAbs : Int)
        ≤ 2147483647
      ∧ toUInt16 (((((v : Int) - 2048).natAbs : Int)
            * (((v : Int) - 2048).natAbs : Int)).tdiv 4095)
        = (((v : Int) - 2048).natAbs * ((v : Int) - 2048).natAbs) / 4095
      ∧ (((v : Int) - 2048).natAbs * ((v : Int) - 2048).natAbs) / 4095 ≤ 65535 := by
  have hd : ((v : Int) - 2048).natAbs ≤ 2048 := by omega
  have hp : ((v : Int) - 2048).natAbs * ((v : Int) - 2048).natAbs ≤ 2048 * 2048 :=
    Nat.mul_le_mul hd hd
  have hq : ((((v : Int) - 2048).natAbs : Int)) * ((((v : Int) - 2048).natAbs : Int))
      = (((((v : Int) - 2048).natAbs * ((v : Int) - 2048).natAbs : Nat)) : Int) := by
    push_cast; ring
  refine ⟨set_led_brightness_eq v hv, ?_, ?_, ?_, ?_⟩
  · rw [hq]; exact toInt32_of_range _ (by omega) (by omega)
  · rw [hq]; omega
  · rw [hq]
    generalize ((v : Int) - 2048).natAbs * ((v : Int) - 2048).natAbs = p at hp
    rw [Int.tdiv_eq_ediv (by omega) (by omega)]
    unfold toUInt16
    omega
  · omega

theorem set_led_brightness_quadratic_witness :
    set_led_brightness 4095
        = ((((4095 : Nat) : Int) - 2048).natAbs * (((4095 : Nat) : Int) - 2048).natAbs)
          / 4095
      ∧ toInt32 ((((((4095 : Nat) : Int) - 2048).natAbs : Int))
          * (((((4095 : Nat) : Int) - 2048).natAbs : Int)))
        = ((((4095 : Nat) : Int) - 2048).natAbs : Int)
          * ((((4095 : Nat) : Int) - 2048).natAbs : Int)
      ∧ ((((4095 : Nat) : Int) - 2048).natAbs : Int)
          * ((((4095 : Nat) : Int) - 2048).natAbs : Int) ≤ 2147483647
      ∧ toUInt16 ((((((4095 : Nat) : Int) - 2048).natAbs : Int)
            * ((((4095 : Nat) : Int) - 2048).natAbs : Int)).tdiv 4095)
        = ((((4095 : Nat) : Int) - 2048).natAbs * (((4095 : Nat) : Int) - 2048).natAbs)
          / 4095
      ∧ ((((4095 : Nat) : Int) - 2048).natAbs * (((4095 : Nat) : Int) - 2048).natAbs)
          / 4095 ≤ 65535 :=
  set_led_brightness_quadratic 4095 (by decide)

/-- C4 fails at the upper extreme: `set_led_brightness 4095` is 1023, not
1024. -/
theorem set_led_brightness_4095_ne_1024 :
    ¬ (set_led_brightness 0 = 1024 ∧ set_led_brightness 4095 = 1024) := by
  decide

/-- C4, amended: at the lower extreme the brightness is 1024 and at the upper
extreme it is 1023: `set_led_brightness 0 = 1024` and
`set_led_brightness 4095 = 1023`. -/
theorem set_led_brightness_extremes :
    set_led_brightness 0 = 1024 ∧ set_led_brightness 4095 = 1023 := by
  decide

/-! ## Debounced dispatcher -/

theorem gpio_irq_handler_accept (s : State) (gpio events now : Nat)
    (h : 250000 < elapsed s now) :
    gpio_irq_handler s gpio events now =
      if gpio = btn_a then
        { s with last_time := now % 4294967296,
                 stdout := s.stdout ++ ["Botão A pressionado!\n"],
                 pwm_state := !s.pwm_state }
      else if gpio = btn_b then
        { s with last_time := now % 4294967296,
                 stdout := s.stdout ++ ["Botão B pressionado!\n"],
                 usb_boot := true }
      else if gpio = btn_j then
        switch_borders
          { s with last_time := now % 4294967296,
                   stdout := s.stdout ++ ["Botão do joystick pressionado!\n"],
                   led_green := !s.led_green }
      else { s with last_time := now % 4294967296 } := by
  have h' : 250000 < subUInt32 (toUInt32 now) s.last_time := h
  unfold gpio_irq_handler
  rw [if_pos h']
  rfl

theorem gpio_irq_handler_drop (s : State) (gpio events now : Nat)
    (h : elapsed s now ≤ 250000) :
    gpio_irq_handler s gpio events now = s := by
  have h' : ¬ 250000 < subUInt32 (toUInt32 now) s.last_time := Nat.not_lt.mpr h
  unfold gpio_irq_handler
  rw [if_neg h']

theorem switch_borders_last_time (s : State) :
    (switch_borders s).last_time = s.last_time := by
  unfold switch_borders
  split <;> rfl

theorem switch_borders_pwm_state (s : State) :
    (switch_borders s).pwm_state = s.pwm_state := by
  unfold switch_borders
  split <;> rfl

theorem elapsed_of_last_accepted (s : State) (t_last now : Nat)
    (hl : s.last_time % 4294967296 = t_last % 4294967296) (hle : t_last ≤ now)
    (hw : now - t_last < 4294967296) :
    elapsed s now = now - t_last := by
  unfold elapsed toUInt32 subUInt32
  rw [hl]
  omega

/-- C5 fails at the boundary, and again when the timer wraps: from the
initial state (`last_time = 0`) a Button A event at time 250000 has elapsed
time exactly 250000, yet `last_time` does not become 250000 and `pwm_state`
is not inverted; and after a Button A event accepted at 300000 µs, a Button
B event at `2^32 + 400000` µs, whose elapsed time `2^32 + 100000` is far above
250000, is dropped as well: no reset is requested and `last_time` stays
300000. -/
theorem debounce_boundary_dropped :
    250000 ≤ 250000 - init.last_time
      ∧ elapsed init 250000 = 250000
      ∧ (gpio_irq_handler init btn_a 4 250000).last_time ≠ 250000
      ∧ (gpio_irq_handler init btn_a 4 250000).pwm_state = init.pwm_state
      ∧ gpio_irq_handler init btn_a 4 250000 = init
      ∧ (gpio_irq_handler init btn_a 4 300000).last_time = 300000
      ∧ 250000 ≤ (4294967296 + 400000)
          - (gpio_irq_handler init btn_a 4 300000).last_time
      ∧ gpio_irq_handler (gpio_irq_handler init btn_a 4 300000) btn_b 4
          (4294967296 + 400000) = gpio_irq_handler init btn_a 4 300000
      ∧ (gpio_irq_handler (gpio_irq_handler init btn_a 4 300000) btn_b 4
          (4294967296 + 400000)).usb_boot = false := by
  decide

/-- C5, amended: the dispatcher accepts every event whose elapsed time since
the last accepted event is strictly greater than 250000 µs and less than
`2^32` µs.  For every state, whose `last_time` holds the low 32 bits of the
time `t_last ≤ now` of the last accepted event, and every call at time `now`:
if `250000 < now - t_last < 2^32`, then `last_time` becomes the low 32 bits of
`now` and the action of the source is performed (Button A inverts
`pwm_state`, Button B calls `reset_usb_boot`, Button J inverts the green LED
and calls `switch_borders`, any other source does nothing more); at the
boundary `now - t_last = 250000` the event is dropped and the state is
unchanged. -/
theorem debounce_accepts (s : State) (gpio events now t_last : Nat)
    (hl : s.last_time % 4294967296 = t_last % 4294967296) (hle : t_last ≤ now) :
    (250000 < now - t_last → now - t_last < 4294967296 →
        (gpio_irq_handler s gpio events now).last_time = now % 4294967296
          ∧ (gpio = btn_a → gpio_irq_handler s gpio events now =
              { s with last_time := now % 4294967296,
                       stdout := s.stdout ++ ["Botão A pressionado!\n"],
                       pwm_state := !s.pwm_state })
          ∧ (gpio = btn_b → gpio_irq_handler s gpio events now =
              { s with last_time := now % 4294967296,
                       stdout := s.stdout ++ ["Botão B pressionado!\n"],
                       usb_boot := true })
          ∧ (gpio = btn_j → gpio_irq_handler s gpio events now =
              switch_borders
                { s with last_time := now % 4294967296,
                         stdout := s.stdout ++ ["Botão do joystick pressionado!\n"],
                         led_green := !s.led_green })
          ∧ (gpio ≠ btn_a → gpio ≠ btn_b → gpio ≠ btn_j →
              gpio_irq_handler s gpio events now
                = { s with last_time := now % 4294967296 }))
      ∧ (now - t_last = 250000 → gpio_irq_handler s gpio events now = s) := by
  constructor
  · intro hgt hw
    have h : 250000 < elapsed s now := by
      rw [elapsed_of_last_accepted s t_last now hl hle hw]
      exact hgt
    rw [gpio_irq_handler_accept s gpio events now h]
    refine ⟨?_, ?_, ?_, ?_, ?_⟩
    · split
      · rfl
      · split
        · rfl
        · split
          · exact switch_borders_last_time _
          · rfl
    · intro hg
      rw [if_pos hg]
    · intro hg
      have ha : ¬ gpio = btn_a := by rw [hg]; decide
      rw [if_neg ha, if_pos hg]
    · intro hg
      have ha : ¬ gpio = btn_a := by rw [hg]; decide
      have hb : ¬ gpio = btn_b := by rw [hg]; decide
      rw [if_neg ha, if_neg hb, if_pos hg]
    · intro ha hb hj
      rw [if_neg ha, if_neg hb, if_neg hj]
  · intro heq
    have h : elapsed s now ≤ 250000 := by
      rw [elapsed_of_last_accepted s t_last now hl hle (by omega)]
      omega
    exact gpio_irq_handler_drop s gpio events now h

theorem debounce_accepts_witness :
    (gpio_irq_handler init btn_a 4 4294967196).last_time % 4294967296
        = 4294967196 % 4294967296
      ∧ 4294967196 ≤ 4295267296
      ∧ 250000 < 4295267296 - 4294967196
      ∧ 4295267296 - 4294967196 < 4294967296
      ∧ (gpio_irq_handler (gpio_irq_handler init btn_a 4 4294967196) btn_a 4
          4295267296).last_time = 4295267296 % 4294967296
      ∧ gpio_irq_handler (gpio_irq_handler init btn_a 4 4294967196) btn_a 4 4295267296
        = { gpio_irq_handler init btn_a 4 4294967196 with
              last_time := 4295267296 % 4294967296,
              stdout := (gpio_irq_handler init btn_a 4 4294967196).stdout
                ++ ["Botão A pressionado!\n"],
              pwm_state := !(gpio_irq_handler init btn_a 4 4294967196).pwm_state }
      ∧ init.last_time % 4294967296 = 0 % 4294967296
      ∧ 250000 - 0 = 250000
      ∧ gpio_irq_handler init btn_j 4 250000 = init :=
  have h := (debounce_accepts (gpio_irq_handler init btn_a 4 4294967196) btn_a 4
    4295267296 4294967196 (by decide) (by decide)).1 (by decide) (by decide)
  ⟨by decide, by decide, by decide, by decide, h.1, h.2.1 rfl, by decide, by decide,
    (debounce_accepts init btn_j 4 250000 0 (by decide) (by decide)).2 (by decide)⟩

/-- C6: a debounced event changes nothing: whenever the elapsed time
`current_time - last_time` computed by the handler is below 250000, a call of
`gpio_irq_handler` for any source (the three buttons included) returns the
state it was given, so `pwm_state`, the viewport and its index, the green
LED, `last_time` and the reset flag are all as before. -/
theorem debounce_drops (s : State) (gpio events now : Nat)
    (h : elapsed s now < 250000) :
    gpio_irq_handler s gpio events now = s
      ∧ (gpio_irq_handler s gpio events now).usb_boot = s.usb_boot := by
  have h' := gpio_irq_handler_drop s gpio events now (Nat.le_of_lt h)
  exact ⟨h', by rw [h']⟩

theorem debounce_drops_witness :
    elapsed init 249999 < 250000
      ∧ gpio_irq_handler init btn_b 4 249999 = init
      ∧ (gpio_irq_handler init btn_b 4 249999).usb_boot = init.usb_boot :=
  ⟨by decide, debounce_drops init btn_b 4 249999 (by decide)⟩

theorem elapsed_of_le (s : State) (now : Nat) (hl : s.last_time ≤ now)
    (hn : now < 4294967296) : elapsed s now = now - s.last_time := by
  unfold elapsed toUInt32 subUInt32
  omega

theorem handle_last_time (s : State) (i : Irq) :
    (handle s i).last_time
      = if 250000 < elapsed s i.now then i.now % 4294967296 else s.last_time := by
  unfold handle
  split
  next h =>
    rw [gpio_irq_handler_accept s i.gpio i.events i.now h]
    split
    · rfl
    · split
      · rfl
      · split
        · exact switch_borders_last_time _
        · rfl
  next h =>
    rw [gpio_irq_handler_drop s i.gpio i.events i.now (Nat.not_lt.mp h)]

theorem accepted_times_spaced (is : List Irq) :
    ∀ s : State,
      (∀ i ∈ is, s.last_time ≤ i.now) →
      is.Pairwise (fun a b => a.now ≤ b.now) →
      (∀ i ∈ is, i.now < 4294967296) →
      (∀ t ∈ accepted_times s is, s.last_time + 250000 < t)
        ∧ (accepted_times s is).Pairwise (fun a b => a + 250000 ≤ b)
        ∧ (handle_all s is).last_time
            = (accepted_times s is).getLastD s.last_time := by
  induction is with
  | nil =>
    intro s _ _ _
    exact ⟨by simp [accepted_times], by simp [accepted_times], rfl⟩
  | cons i is ih =>
    intro s hge hsorted hlt
    have hi_ge : s.last_time ≤ i.now := hge i (List.mem_cons_self _ _)
    have hi_lt : i.now < 4294967296 := hlt i (List.mem_cons_self _ _)
    have htail_sorted := (List.pairwise_cons.mp hsorted).2
    have hhead_le := (List.pairwise_cons.mp hsorted).1
    have htail_lt : ∀ j ∈ is, j.now < 4294967296 :=
      fun j hj => hlt j (List.mem_cons_of_mem _ hj)
    have hel := elapsed_of_le s i.now hi_ge hi_lt
    have hlast := handle_last_time s i
    have hrun : handle_all s (i :: is) = handle_all (handle s i) is := rfl
    by_cases hacc : 250000 < elapsed s i.now
    · have hunf : accepted_times s (i :: is)
          = i.now :: accepted_times (handle s i) is := by
        simp only [accepted_times, if_pos hacc]
      rw [if_pos hacc, Nat.mod_eq_of_lt hi_lt] at hlast
      have hge' : ∀ j ∈ is, (handle s i).last_time ≤ j.now := by
        intro j hj; rw [hlast]; exact hhead_le j hj
      obtain ⟨h1, h2, h3⟩ := ih (handle s i) hge' htail_sorted htail_lt
      rw [hunf, hrun, h3, hlast, List.getLastD_cons]
      refine ⟨?_, ?_, rfl⟩
      · intro t ht
        rcases List.mem_cons.mp ht with rfl | ht
        · omega
        · have := h1 t ht
          omega
      · refine List.pairwise_cons.mpr ⟨?_, h2⟩
        intro t ht
        have := h1 t ht
        omega
    · have hunf : accepted_times s (i :: is) = accepted_times (handle s i) is := by
        simp only [accepted_times, if_neg hacc]
      have hs : handle s i = s := gpio_irq_handler_drop s _ _ _ (Nat.not_lt.mp hacc)
      rw [hunf, hrun, hs]
      exact ih s (fun j hj => hge j (List.mem_cons_of_mem _ hj)) htail_sorted htail_lt

/-- C7: for every sequence of `gpio_irq_handler` invocations served from the
initial state whose timer values are non-decreasing and below `2^32`, any two
accepted events are at least 250000 microseconds apart, and `last_time` after
the sequence is the timer value of the most recently accepted event (the
initial 0 when none was accepted). -/
theorem accepted_events_apart (is : List Irq)
    (hsorted : is.Pairwise (fun a b => a.now ≤ b.now))
    (hlt : ∀ i ∈ is, i.now < 4294967296) :
    (accepted_times init is).Pairwise (fun a b => a + 250000 ≤ b)
      ∧ (handle_all init is).last_time = (accepted_times init is).getLastD 0 :=
  (accepted_times_spaced is init (fun _ _ => Nat.zero_le _) hsorted hlt).2

theorem accepted_events_apart_witness :
    [Irq.mk btn_a 4 300000, Irq.mk btn_j 4 400000, Irq.mk btn_a 4 550001].Pairwise
        (fun a b => a.now ≤ b.now)
      ∧ (∀ i ∈ [Irq.mk btn_a 4 300000, Irq.mk btn_j 4 400000, Irq.mk btn_a 4 550001],
          i.now < 4294967296)
      ∧ accepted_times init
          [Irq.mk btn_a 4 300000, Irq.mk btn_j 4 400000, Irq.mk btn_a 4 550001]
        = [300000, 550001]
      ∧ (accepted_times init
          [Irq.mk btn_a 4 300000, Irq.mk btn_j 4 400000, Irq.mk btn_a 4 550001]).Pairwise
          (fun a b => a + 250000 ≤ b)
      ∧ (handle_all init
          [Irq.mk btn_a 4 300000, Irq.mk btn_j 4 400000, Irq.mk btn_a 4 550001]).last_time
        = (accepted_times init
            [Irq.mk btn_a 4 300000, Irq.mk btn_j 4 400000, Irq.mk btn_a 4 550001]).getLastD 0 :=
  ⟨by decide, by decide, by decide,
    accepted_events_apart
      [Irq.mk btn_a 4 300000, Irq.mk btn_j 4 400000, Irq.mk btn_a 4 550001]
      (by decide) (by decide)⟩

/-! ## Viewport cycle -/

theorem switch_borders_step (s : State) (k : Nat) (hk : k < 4)
    (hcb : s.current_border = k) :
    (switch_borders s).current_border = (k + 1) % 4
      ∧ presets[(k + 1) % 4]?
          = some ((switch_borders s).border_x_max, (switch_borders s).border_y_max) := by
  unfold switch_borders
  interval_cases k <;> simp [hcb, presets]

theorem switch_borders_iterate (n : Nat) :
    (switch_borders^[n] init).current_border = n % 4
      ∧ presets[n % 4]?
          = some ((switch_borders^[n] init).border_x_max,
                  (switch_borders^[n] init).border_y_max) := by
  induction n with
  | zero => exact ⟨rfl, rfl⟩
  | succ n ih =>
    rw [Function.iterate_succ_apply']
    have h := switch_borders_step (switch_borders^[n] init) (n % 4)
      (Nat.mod_lt _ (by decide)) ih.1
    have hm : (n % 4 + 1) % 4 = (n + 1) % 4 := by omega
    rw [hm] at h
    exact h

/-- C8: starting from the initial state `(128,64)`, after `n` calls of
`switch_borders` the viewport `(border_x_max, border_y_max)` is entry
`n mod 4` of the cycle `(128,64), (96,48), (64,32), (32,16)`; four more calls
always lead back to the same state, so the presets are visited in the order
FULL, MED, SMALL, TINY, FULL. -/
theorem switch_borders_cycle (n : Nat) :
    presets[n % 4]?
        = some ((switch_borders^[n] init).border_x_max,
                (switch_borders^[n] init).border_y_max)
      ∧ switch_borders^[n + 4] init = switch_borders^[n] init
      ∧ switch_borders^[4] init = init := by
  refine ⟨(switch_borders_iterate n).2, ?_, by decide⟩
  rw [Function.iterate_add_apply]
  have h4 : switch_borders^[4] init = init := by decide
  rw [h4]

theorem viewport_ok_facts (k w h : Nat) (hp : presets[k]? = some (w, h)) :
    k < 4 ∧ (w, h) ∈ presets ∧ w % 2 = 0 ∧ h % 2 = 0 := by
  have hk : k < 4 := by
    by_contra hge
    have hlen : presets.length ≤ k := by simp [presets]; omega
    rw [List.getElem?_eq_none hlen] at hp
    exact absurd hp (by simp)
  interval_cases k <;> simp [presets] at hp <;> obtain ⟨rfl, rfl⟩ := hp <;>
    simp [presets]

theorem switch_borders_viewport_ok (s : State) (h : viewport_ok s) :
    viewport_ok (switch_borders s) := by
  unfold viewport_ok at h ⊢
  obtain ⟨hk, -, -, -⟩ := viewport_ok_facts _ _ _ h
  have hs := switch_borders_step s s.current_border hk rfl
  rw [hs.1]
  exact hs.2

theorem gpio_irq_handler_viewport_ok (s : State) (gpio events now : Nat)
    (h : viewport_ok s) : viewport_ok (gpio_irq_handler s gpio events now) := by
  by_cases hacc : 250000 < elapsed s now
  · rw [gpio_irq_handler_accept s gpio events now hacc]
    split
    · exact h
    · split
      · exact h
      · split
        · exact switch_borders_viewport_ok _ h
        · exact h
  · rw [gpio_irq_handler_drop s gpio events now (Nat.not_lt.mp hacc)]
    exact h

theorem main_loop_viewport_ok (s : State) (x y : Nat) (h : viewport_ok s) :
    viewport_ok (main_loop s x y) := by
  unfold viewport_ok at h ⊢
  unfold main_loop
  split <;> exact h

theorem run_viewport_ok (es : List Event) :
    ∀ s : State, viewport_ok s → viewport_ok (run s es) := by
  induction es with
  | nil => intro s h; exact h
  | cons e es ih =>
    intro s h
    have hstep : viewport_ok (step s e) := by
      cases e with
      | irq i => exact gpio_irq_handler_viewport_ok s i.gpio i.events i.now h
      | loop x y => exact main_loop_viewport_ok s x y h
    exact ih (step s e) hstep

/-- C9: in every state reached from the initial state by any sequence of
dispatcher invocations (any gpio, any timer value) and main-loop iterations,
`(border_x_max, border_y_max)` is the preset selected by `current_border`,
which is one of 0, 1, 2, 3; so the viewport is one of the four presets, and
both its width and its height are even. -/
theorem viewport_invariant (es : List Event) :
    presets[(run init es).current_border]?
        = some ((run init es).border_x_max, (run init es).border_y_max)
      ∧ (run init es).current_border < 4
      ∧ ((run init es).border_x_max, (run init es).border_y_max) ∈ presets
      ∧ (run init es).border_x_max % 2 = 0
      ∧ (run init es).border_y_max % 2 = 0 := by
  have h : viewport_ok (run init es) := run_viewport_ok es init rfl
  exact ⟨h, viewport_ok_facts _ _ _ h⟩

/-! ## Button A scenario -/

theorem elapsed_after_accept (s : State) (gpio events t0 t : Nat)
    (h0 : 250000 < elapsed s t0) (ht : t0 ≤ t) :
    elapsed (gpio_irq_handler s gpio events t0) t = (t - t0) % 4294967296 := by
  have hl : (gpio_irq_handler s gpio events t0).last_time = t0 % 4294967296 := by
    have := handle_last_time s (Irq.mk gpio events t0)
    rw [if_pos h0] at this
    exact this
  unfold elapsed toUInt32 subUInt32
  rw [hl]
  omega

theorem handle_all_dropped (s : State) (is : List Irq)
    (h : ∀ i ∈ is, elapsed s i.now ≤ 250000) : handle_all s is = s := by
  induction is with
  | nil => rfl
  | cons i is ih =>
    have hi : handle s i = s :=
      gpio_irq_handler_drop s i.gpio i.events i.now (h i (List.mem_cons_self _ _))
    have hrun : handle_all s (i :: is) = handle_all (handle s i) is := rfl
    rw [hrun, hi]
    exact ih (fun j hj => h j (List.mem_cons_of_mem _ hj))

/-- C10 fails when the timer wraps: after a Button A event accepted at
300000 µs (`pwm_state` false), a Button A event at `2^32 + 300100` µs, which
is far beyond the 250 ms window, is dropped and `pwm_state` stays false. -/
theorem button_a_after_wrap_dropped :
    init.pwm_state = true
      ∧ (gpio_irq_handler init btn_a 4 300000).pwm_state = false
      ∧ 300000 + 250000 < 4294967296 + 300100
      ∧ gpio_irq_handler (gpio_irq_handler init btn_a 4 300000) btn_a 4
          (4294967296 + 300100) = gpio_irq_handler init btn_a 4 300000
      ∧ (gpio_irq_handler (gpio_irq_handler init btn_a 4 300000) btn_a 4
          (4294967296 + 300100)).pwm_state ≠ true := by
  decide

/-- C10, amended: `pwm_state` starts true; when a Button A event is accepted
at time `t0` in a state where `pwm_state` is true, `pwm_state` becomes false;
every further event arriving within 250000 µs of `t0` is dropped and leaves
the state, hence `pwm_state = false`, as it is; the next Button A event
arriving more than 250000 µs and less than `2^32` µs after `t0` is accepted
and makes `pwm_state` true again. -/
theorem button_a_scenario (s : State) (e0 e1 t0 t1 : Nat) (mid : List Irq)
    (hs : s.pwm_state = true)
    (h0 : 250000 < elapsed s t0)
    (hmid : ∀ i ∈ mid, i.gpio = btn_a ∧ t0 ≤ i.now ∧ i.now ≤ t0 + 250000)
    (h1 : t0 + 250000 < t1) (hw : t1 < t0 + 4294967296) :
    init.pwm_state = true
      ∧ (gpio_irq_handler s btn_a e0 t0).pwm_state = false
      ∧ (∀ i ∈ mid,
          handle (gpio_irq_handler s btn_a e0 t0) i = gpio_irq_handler s btn_a e0 t0)
      ∧ handle_all (gpio_irq_handler s btn_a e0 t0) mid
          = gpio_irq_handler s btn_a e0 t0
      ∧ (handle_all (gpio_irq_handler s btn_a e0 t0) mid).pwm_state = false
      ∧ 250000 < elapsed (handle_all (gpio_irq_handler s btn_a e0 t0) mid) t1
      ∧ (gpio_irq_handler (handle_all (gpio_irq_handler s btn_a e0 t0) mid)
          btn_a e1 t1).pwm_state = true := by
  have hp1 : (gpio_irq_handler s btn_a e0 t0).pwm_state = false := by
    rw [gpio_irq_handler_accept s btn_a e0 t0 h0, if_pos rfl]
    simp [hs]
  have hdrop : ∀ i ∈ mid, elapsed (gpio_irq_handler s btn_a e0 t0) i.now ≤ 250000 := by
    intro i hi
    obtain ⟨-, hge, hle⟩ := hmid i hi
    rw [elapsed_after_accept s btn_a e0 t0 i.now h0 hge]
    omega
  have hall := handle_all_dropped (gpio_irq_handler s btn_a e0 t0) mid hdrop
  have hacc : 250000 < elapsed (gpio_irq_handler s btn_a e0 t0) t1 := by
    rw [elapsed_after_accept s btn_a e0 t0 t1 h0 (by omega)]
    omega
  refine ⟨rfl, hp1, ?_, hall, ?_, ?_, ?_⟩
  · intro i hi
    exact gpio_irq_handler_drop _ i.gpio i.events i.now (hdrop i hi)
  · rw [hall]; exact hp1
  · rw [hall]; exact hacc
  · rw [hall, gpio_irq_handler_accept _ btn_a e1 t1 hacc, if_pos rfl]
    simp [hp1]

theorem button_a_scenario_witness :
    init.pwm_state = true
      ∧ 250000 < elapsed init 300000
      ∧ (∀ i ∈ [Irq.mk btn_a 4 300100, Irq.mk btn_a 4 550000],
          i.gpio = btn_a ∧ 300000 ≤ i.now ∧ i.now ≤ 300000 + 250000)
      ∧ (gpio_irq_handler init btn_a 4 300000).pwm_state = false
      ∧ handle_all (gpio_irq_handler init btn_a 4 300000)
          [Irq.mk btn_a 4 300100, Irq.mk btn_a 4 550000]
          = gpio_irq_handler init btn_a 4 300000
      ∧ (gpio_irq_handler (handle_all (gpio_irq_handler init btn_a 4 300000)
          [Irq.mk btn_a 4 300100, Irq.mk btn_a 4 550000]) btn_a 4 550001).pwm_state
          = true :=
  have h := button_a_scenario init 4 4 300000 550001
    [Irq.mk btn_a 4 300100, Irq.mk btn_a 4 550000] rfl (by decide) (by decide)
    (by decide) (by decide)
  ⟨rfl, by decide, by decide, h.2.1, h.2.2.2.1, h.2.2.2.2.2.2⟩

/-! ## Button J and the shared timestamp -/

theorem switch_borders_led_green (s : State) :
    (switch_borders s).led_green = s.led_green := by
  unfold switch_borders
  split <;> rfl

theorem gpio_irq_handler_accept_j (s : State) (events now : Nat)
    (h : 250000 < elapsed s now) :
    gpio_irq_handler s btn_j events now =
      switch_borders
        { s with last_time := now % 4294967296,
                 stdout := s.stdout ++ ["Botão do joystick pressionado!\n"],
                 led_green := !s.led_green } := by
  have ha : ¬ btn_j = btn_a := by decide
  have hb : ¬ btn_j = btn_b := by decide
  rw [gpio_irq_handler_accept s btn_j events now h, if_neg ha, if_neg hb, if_pos rfl]

/-- C11: every accepted Button J event, in any state reached from the
initial state, inverts the green LED state, leaves `pwm_state` unchanged and
moves the viewport from the preset of index `current_border` to the preset of
the next index of the cycle; from the initial state (FULL, 128x64) the first
accepted Button J event gives MED (96x48) and the second accepted one gives
SMALL (64x32). -/
theorem button_j_accepted (es : List Event) (events now e0 e1 t0 t1 : Nat)
    (h : 250000 < elapsed (run init es) now)
    (h0 : 250000 < elapsed init t0)
    (h1 : 250000 < elapsed (gpio_irq_handler init btn_j e0 t0) t1) :
    (gpio_irq_handler (run init es) btn_j events now).led_green
        = !(run init es).led_green
      ∧ (gpio_irq_handler (run init es) btn_j events now).pwm_state
        = (run init es).pwm_state
      ∧ presets[(run init es).current_border]?
        = some ((run init es).border_x_max, (run init es).border_y_max)
      ∧ (gpio_irq_handler (run init es) btn_j events now).current_border
        = ((run init es).current_border + 1) % 4
      ∧ presets[((run init es).current_border + 1) % 4]?
        = some ((gpio_irq_handler (run init es) btn_j events now).border_x_max,
                (gpio_irq_handler (run init es) btn_j events now).border_y_max)
      ∧ (init.border_x_max, init.border_y_max) = (128, 64)
      ∧ ((gpio_irq_handler init btn_j e0 t0).border_x_max,
         (gpio_irq_handler init btn_j e0 t0).border_y_max) = (96, 48)
      ∧ ((gpio_irq_handler (gpio_irq_handler init btn_j e0 t0) btn_j e1 t1).border_x_max,
         (gpio_irq_handler (gpio_irq_handler init btn_j e0 t0) btn_j e1 t1).border_y_max)
        = (64, 32) := by
  have hok : viewport_ok (run init es) := run_viewport_ok es init rfl
  have hk := (viewport_ok_facts _ _ _ hok).1
  have hstep := switch_borders_step
    { run init es with
        last_time := now % 4294967296,
        stdout := (run init es).stdout ++ ["Botão do joystick pressionado!\n"],
        led_green := !(run init es).led_green }
    (run init es).current_border hk rfl
  have hfirst : gpio_irq_handler init btn_j e0 t0 =
      { init with last_time := t0 % 4294967296,
                  stdout := ["Botão do joystick pressionado!\n"],
                  led_green := true, border_x_max := 96, border_y_max := 48,
                  current_border := 1 } := by
    rw [gpio_irq_handler_accept_j init e0 t0 h0]
    rfl
  have hsecond : gpio_irq_handler (gpio_irq_handler init btn_j e0 t0) btn_j e1 t1 =
      { gpio_irq_handler init btn_j e0 t0 with
          last_time := t1 % 4294967296,
          stdout := (gpio_irq_handler init btn_j e0 t0).stdout
            ++ ["Botão do joystick pressionado!\n"],
          led_green := !(gpio_irq_handler init btn_j e0 t0).led_green,
          border_x_max := 64, border_y_max := 32, current_border := 2 } := by
    rw [gpio_irq_handler_accept_j _ e1 t1 h1, hfirst]
    rfl
  rw [gpio_irq_handler_accept_j (run init es) events now h]
  refine ⟨?_, ?_, hok, hstep.1, hstep.2, rfl, ?_, ?_⟩
  · rw [switch_borders_led_green]
  · rw [switch_borders_pwm_state]
  · rw [hfirst]
  · rw [hsecond]

theorem button_j_accepted_witness :
    250000 < elapsed (run init [Event.loop 100 200]) 300000
      ∧ 250000 < elapsed init 300000
      ∧ 250000 < elapsed (gpio_irq_handler init btn_j 4 300000) 600000
      ∧ (gpio_irq_handler (run init [Event.loop 100 200]) btn_j 4 300000).led_green
        = !(run init [Event.loop 100 200]).led_green
      ∧ ((gpio_irq_handler init btn_j 4 300000).border_x_max,
         (gpio_irq_handler init btn_j 4 300000).border_y_max) = (96, 48)
      ∧ ((gpio_irq_handler (gpio_irq_handler init btn_j 4 300000) btn_j 4 600000).border_x_max,
         (gpio_irq_handler (gpio_irq_handler init btn_j 4 300000) btn_j 4 600000).border_y_max)
        = (64, 32) :=
  have h := button_j_accepted [Event.loop 100 200] 4 300000 4 4 300000 600000
    (by decide) (by decide) (by decide)
  ⟨by decide, by decide, by decide, h.1, h.2.2.2.2.2.2.1, h.2.2.2.2.2.2.2⟩

/-- C12: the debounce timestamp is shared by all buttons: after a Button A
event is accepted at time `t`, an event from any source `gpio`, Button B and
Button J included, arriving at `t'` with `t ≤ t'` and `t' - t` at most
250000 µs is dropped: the state is unchanged, so no reset is requested and
neither the green LED nor the viewport changes. -/
theorem shared_timestamp_drops (s : State) (e0 e1 t t' gpio : Nat)
    (h0 : 250000 < elapsed s t) (hge : t ≤ t') (hle : t' - t ≤ 250000) :
    gpio_irq_handler (gpio_irq_handler s btn_a e0 t) gpio e1 t'
        = gpio_irq_handler s btn_a e0 t
      ∧ (gpio_irq_handler (gpio_irq_handler s btn_a e0 t) gpio e1 t').usb_boot
        = s.usb_boot
      ∧ (gpio_irq_handler s btn_a e0 t).last_time = t % 4294967296 := by
  have hel : elapsed (gpio_irq_handler s btn_a e0 t) t' ≤ 250000 := by
    rw [elapsed_after_accept s btn_a e0 t t' h0 hge]
    omega
  have hdrop := gpio_irq_handler_drop (gpio_irq_handler s btn_a e0 t) gpio e1 t' hel
  have hacc := gpio_irq_handler_accept s btn_a e0 t h0
  rw [if_pos rfl] at hacc
  refine ⟨hdrop, ?_, ?_⟩
  · rw [hdrop, hacc]
  · rw [hacc]

theorem shared_timestamp_drops_witness :
    250000 < elapsed init 300000
      ∧ gpio_irq_handler (gpio_irq_handler init btn_a 4 300000) btn_b 4 400000
        = gpio_irq_handler init btn_a 4 300000
      ∧ (gpio_irq_handler (gpio_irq_handler init btn_a 4 300000) btn_b 4 400000).usb_boot
        = init.usb_boot
      ∧ (gpio_irq_handler init btn_a 4 300000).last_time = 300000 % 4294967296 :=
  ⟨by decide,
    shared_timestamp_drops init 4 4 300000 400000 btn_b (by decide) (by decide)
      (by decide)⟩

/-! ## Coordinate scenarios -/

/-- C13: at the FULL preset (128x64) the coordinate computation of the main
loop maps samples `x = 0, y = 0` to `(display_x, display_y) = (0, 56)` and
samples `x = 4095, y = 4095` to `(120, 0)`; the marker drawn by an iteration
from the initial state has these coordinates. -/
theorem full_preset_corners :
    (init.border_x_max, init.border_y_max) = (128, 64)
      ∧ (display_x 0 128, display_y 0 64) = (0, 56)
      ∧ (display_x 4095 128, display_y 4095 64) = (120, 0)
      ∧ (main_loop init 0 0).display.head?
        = some { top := 56, left := 0, width := 8, height := 8, fill := true }
      ∧ (main_loop init 4095 4095).display.head?
        = some { top := 0, left := 120, width := 8, height := 8, fill := true } := by
  decide

theorem map_adc_to_display_mono (v1 v2 r : Nat) (h12 : v1 ≤ v2) (hv : v2 ≤ 4095)
    (hr : r ≤ 128) :
    map_adc_to_display v1 4095 r ≤ map_adc_to_display v2 4095 r := by
  have hp1 : v1 * r ≤ v2 * r := Nat.mul_le_mul_right r h12
  have hp2 : v2 * r ≤ 4095 * r := Nat.mul_le_mul_right r hv
  have hq1 : (v1 : Int) * (r : Int) = ((v1 * r : Nat) : Int) := by push_cast; ring
  have hq2 : (v2 : Int) * (r : Int) = ((v2 * r : Nat) : Int) := by push_cast; ring
  unfold map_adc_to_display
  rw [hq1, hq2]
  generalize v1 * r = p1 at hp1
  generalize v2 * r = p2 at hp1 hp2
  rw [toInt32_of_range (p1 : Int) (by omega) (by omega),
    toInt32_of_range (p2 : Int) (by omega) (by omega),
    Int.tdiv_eq_ediv (by omega) (by omega), Int.tdiv_eq_ediv (by omega) (by omega)]
  omega

/-- C18: for every viewport preset `(w,h)` and samples in `[0,4095]`, the
marker moves right with the X sample and up with the Y sample:
`x1 ≤ x2` gives `display_x x1 ≤ display_x x2`, and `y1 ≤ y2` gives
`display_y y1 ≥ display_y y2` (the vertical axis is inverted). -/
theorem marker_monotone (w h x1 x2 y1 y2 : Nat) (hp : (w, h) ∈ presets)
    (hx : x1 ≤ x2) (hx2 : x2 ≤ 4095) (hy : y1 ≤ y2) (hy2 : y2 ≤ 4095) :
    display_x x1 w ≤ display_x x2 w ∧ display_y y2 h ≤ display_y y1 h := by
  have hwh : (w = 128 ∧ h = 64) ∨ (w = 96 ∧ h = 48) ∨ (w = 64 ∧ h = 32)
      ∨ (w = 32 ∧ h = 16) := by
    simpa [presets] using hp
  have hw8 : 8 ≤ w ∧ w ≤ 128 ∧ 8 ≤ h ∧ h ≤ 64 := by omega
  have hmx := map_adc_to_display_mono x1 x2 (w - 8) hx hx2 (by omega)
  have hmy := map_adc_to_display_mono y1 y2 (h - 8) hy hy2 (by omega)
  have hcw : (((w - 8 : Nat)) : Int) = (w : Int) - 8 := by omega
  have hch : (((h - 8 : Nat)) : Int) = (h : Int) - 8 := by omega
  rw [hcw] at hmx
  rw [hch] at hmy
  unfold display_x display_y
  constructor <;> omega

theorem marker_monotone_witness :
    (128, 64) ∈ presets
      ∧ display_x 1000 128 ≤ display_x 3000 128
      ∧ display_y 3000 64 ≤ display_y 1000 64 :=
  ⟨by decide,
    marker_monotone 128 64 1000 3000 1000 3000 (by decide) (by decide) (by decide)
      (by decide) (by decide)⟩

/-! ## Main loop and frame properties -/

theorem set_led_brightness_mod (v : Nat) :
    set_led_brightness (v % 65536) = set_led_brightness v := by
  unfold set_led_brightness
  rw [Nat.mod_mod]

/-- C14: one iteration of the main loop with samples `x`, `y`: if `pwm_state`
is true the red LED level becomes `set_led_brightness x` and the blue LED
level becomes `set_led_brightness y`; if `pwm_state` is false both levels are
left as they were before the iteration. -/
theorem main_loop_led_levels (s : State) (x y : Nat) :
    (s.pwm_state = true →
        (main_loop s x y).level_red = set_led_brightness x
          ∧ (main_loop s x y).level_blue = set_led_brightness y)
      ∧ (s.pwm_state = false →
        (main_loop s x y).level_red = s.level_red
          ∧ (main_loop s x y).level_blue = s.level_blue) := by
  constructor
  · intro hp
    simp only [main_loop, hp, if_true]
    exact ⟨set_led_brightness_mod x, set_led_brightness_mod y⟩
  · intro hp
    simp only [main_loop, hp]
    exact ⟨rfl, rfl⟩

theorem main_loop_led_levels_witness :
    ((main_loop init 100 4000).level_red = set_led_brightness 100
        ∧ (main_loop init 100 4000).level_blue = set_led_brightness 4000)
      ∧ ((main_loop (gpio_irq_handler init btn_a 4 300000) 100 4000).level_red
          = (gpio_irq_handler init btn_a 4 300000).level_red
        ∧ (main_loop (gpio_irq_handler init btn_a 4 300000) 100 4000).level_blue
          = (gpio_irq_handler init btn_a 4 300000).level_blue) :=
  ⟨(main_loop_led_levels init 100 4000).1 (by decide),
    (main_loop_led_levels (gpio_irq_handler init btn_a 4 300000) 100 4000).2
      (by decide)⟩

/-- C15: shared state is written only by the dispatcher on its specific
event: a call of `gpio_irq_handler` changes `pwm_state` only if the event is
accepted and comes from Button A, changes the viewport (`border_x_max`,
`border_y_max`, `current_border`) only if the event is accepted and comes from
Button J, and changes `last_time` only if the event is accepted; a main-loop
iteration changes none of `pwm_state`, the viewport or `last_time`. -/
theorem shared_state_writers (s : State) (gpio events now x y : Nat) :
    ((gpio_irq_handler s gpio events now).pwm_state ≠ s.pwm_state →
        250000 < elapsed s now ∧ gpio = btn_a)
      ∧ (((gpio_irq_handler s gpio events now).border_x_max,
          (gpio_irq_handler s gpio events now).border_y_max,
          (gpio_irq_handler s gpio events now).current_border)
          ≠ (s.border_x_max, s.border_y_max, s.current_border) →
        250000 < elapsed s now ∧ gpio = btn_j)
      ∧ ((gpio_irq_handler s gpio events now).last_time ≠ s.last_time →
        250000 < elapsed s now)
      ∧ (main_loop s x y).pwm_state = s.pwm_state
      ∧ (main_loop s x y).border_x_max = s.border_x_max
      ∧ (main_loop s x y).border_y_max = s.border_y_max
      ∧ (main_loop s x y).current_border = s.current_border
      ∧ (main_loop s x y).last_time = s.last_time := by
  have hloop : (main_loop s x y).pwm_state = s.pwm_state
      ∧ (main_loop s x y).border_x_max = s.border_x_max
      ∧ (main_loop s x y).border_y_max = s.border_y_max
      ∧ (main_loop s x y).current_border = s.current_border
      ∧ (main_loop s x y).last_time = s.last_time := by
    unfold main_loop
    split <;> exact ⟨rfl, rfl, rfl, rfl, rfl⟩
  by_cases hacc : 250000 < elapsed s now
  · refine ⟨fun hne => ⟨hacc, ?_⟩, fun hne => ⟨hacc, ?_⟩, fun _ => hacc, hloop⟩
    · by_contra hg
      apply hne
      rw [gpio_irq_handler_accept s gpio events now hacc, if_neg hg]
      split
      · rfl
      · split
        · exact switch_borders_pwm_state _
        · rfl
    · by_contra hg
      apply hne
      rw [gpio_irq_handler_accept s gpio events now hacc, if_neg hg]
      split
      · rfl
      · split <;> rfl
  · have hs := gpio_irq_handler_drop s gpio events now (Nat.not_lt.mp hacc)
    rw [hs]
    exact ⟨fun hne => absurd rfl hne, fun hne => absurd rfl hne,
      fun hne => absurd rfl hne, hloop⟩

theorem shared_state_writers_witness :
    (250000 < elapsed init 300000 ∧ btn_a = btn_a)
      ∧ (250000 < elapsed init 300000 ∧ btn_j = btn_j)
      ∧ 250000 < elapsed init 300000
      ∧ (main_loop init 100 4000).pwm_state = init.pwm_state :=
  ⟨(shared_state_writers init btn_a 4 300000 100 4000).1 (by decide),
    (shared_state_writers init btn_j 4 300000 100 4000).2.1 (by decide),
    (shared_state_writers init btn_b 4 300000 100 4000).2.2.1 (by decide),
    (shared_state_writers init btn_a 4 300000 100 4000).2.2.2.1⟩

/-! ## Shape of the brightness curve -/

/-- C16: the brightness is symmetric around the midpoint 2048: for every `v`
in `[1,4095]`, `set_led_brightness v = set_led_brightness (4096 - v)`. -/
theorem set_led_brightness_symmetric (v : Nat) (h1 : 1 ≤ v) (h2 : v ≤ 4095) :
    set_led_brightness v = set_led_brightness (4096 - v) := by
  have hd : (((4096 - v : Nat) : Int) - 2048).natAbs = ((v : Int) - 2048).natAbs := by
    omega
  rw [set_led_brightness_eq v h2, set_led_brightness_eq (4096 - v) (by omega)]
  unfold quadratic_response
  rw [hd]

theorem set_led_brightness_symmetric_witness :
    set_led_brightness 1 = set_led_brightness (4096 - 1) :=
  set_led_brightness_symmetric 1 (by decide) (by decide)

theorem abs_value_eq (v : Nat) (hv : v ≤ 4095) :
    abs_value v = (((v : Int) - 2048).natAbs : Int) := by
  have hv16 : v % 65536 = v := Nat.mod_eq_of_lt (by omega)
  have h1 : toInt32 ((v : Int) - 2048) = (v : Int) - 2048 :=
    toInt32_of_range _ (by omega) (by omega)
  unfold abs_value
  rw [hv16, h1]
  exact toInt32_of_range _ (by omega) (by omega)

/-- C17 fails at `v = 0`: the absolute deviation computed by
`set_led_brightness` is 2048 there, outside `[0,2047]`. -/
theorem abs_value_zero_exceeds_2047 :
    (0 : Nat) ≤ 4095 ∧ abs_value 0 = 2048 ∧ ¬ (0 ≤ abs_value 0 ∧ abs_value 0 ≤ 2047) := by
  decide

/-- C17, amended: for every raw sample `v` in `[0,4095]`, the absolute
deviation `|v - 2048|` computed by `set_led_brightness` (`abs_value`, the
value squared and divided by 4095 there) lies in `[0,2048]`, and in
`[0,2047]` whenever `v ≥ 1`. -/
theorem abs_value_range (v : Nat) (hv : v ≤ 4095) :
    set_led_brightness v
        = toUInt16 ((toInt32 (abs_value v * abs_value v)).tdiv 4095)
      ∧ abs_value v = (((v : Int) - 2048).natAbs : Int)
      ∧ 0 ≤ abs_value v
      ∧ abs_value v ≤ 2048
      ∧ (1 ≤ v → abs_value v ≤ 2047) := by
  have h := abs_value_eq v hv
  refine ⟨rfl, h, ?_, ?_, ?_⟩
  · rw [h]; omega
  · rw [h]; omega
  · intro h1; rw [h]; omega

theorem abs_value_range_witness :
    set_led_brightness 4095
        = toUInt16 ((toInt32 (abs_value 4095 * abs_value 4095)).tdiv 4095)
      ∧ abs_value 4095 = (((((4095 : Nat) : Int)) - 2048).natAbs : Int)
      ∧ 0 ≤ abs_value 4095
      ∧ abs_value 4095 ≤ 2048
      ∧ abs_value 4095 ≤ 2047 :=
  have h := abs_value_range 4095 (by decide)
  ⟨h.1, h.2.1, h.2.2.1, h.2.2.2.1, h.2.2.2.2 (by decide)⟩

/-- C19: brightness never decreases as the stick is deflected further from
centre: `set_led_brightness 2048 = 0`, and for `v1`, `v2` in `[0,4095]` with
`|v1 - 2048| ≤ |v2 - 2048|`, `set_led_brightness v1 ≤ set_led_brightness v2`;
so every sample in range is at least as bright as the centre and at most as
bright as the extreme `v = 0`. -/
theorem set_led_brightness_monotone (v1 v2 : Nat) (h1 : v1 ≤ 4095) (h2 : v2 ≤ 4095)
    (hd : ((v1 : Int) - 2048).natAbs ≤ ((v2 : Int) - 2048).natAbs) :
    set_led_brightness 2048 = 0
      ∧ set_led_brightness v1 ≤ set_led_brightness v2
      ∧ set_led_brightness 2048 ≤ set_led_brightness v1
      ∧ set_led_brightness v1 ≤ set_led_brightness 0 := by
  have h0 : set_led_brightness 2048 = 0 := by decide
  have hmax : set_led_brightness 0 = 1024 := by decide
  refine ⟨h0, ?_, ?_, ?_⟩
  · rw [set_led_brightness_eq v1 h1, set_led_brightness_eq v2 h2]
    unfold quadratic_response
    exact Nat.div_le_div_right (Nat.mul_le_mul hd hd)
  · rw [h0]; exact Nat.zero_le _
  · rw [hmax, set_led_brightness_eq v1 h1]
    exact quadratic_response_le v1 h1

theorem set_led_brightness_monotone_witness :
    (((3000 : Nat) : Int) - 2048).natAbs ≤ (((500 : Nat) : Int) - 2048).natAbs
      ∧ set_led_brightness 2048 = 0
      ∧ set_led_brightness 3000 ≤ set_led_brightness 500
      ∧ set_led_brightness 2048 ≤ set_led_brightness 3000
      ∧ set_led_brightness 3000 ≤ set_led_brightness 0 :=
  ⟨by decide,
    set_led_brightness_monotone 3000 500 (by decide) (by decide) (by decide)⟩

/-! ## Timer wraparound -/

theorem elapsed_of_true_times (s : State) (t_last t_now : Nat)
    (hl : s.last_time = t_last % 4294967296) (hle : t_last ≤ t_now)
    (hw : t_now - t_last < 4294967296) :
    elapsed s t_now = t_now - t_last := by
  unfold elapsed toUInt32 subUInt32
  rw [hl]
  omega

/-- C20: the debounce test survives wraparound of the 32-bit timestamp: for
true times `t_last ≤ t_now` with `t_now - t_last < 2^32`, where `last_time`
holds the low 32 bits of `t_last` and `current_time` those of `t_now`, the
unsigned difference `current_time - last_time` equals `t_now - t_last`, and
`gpio_irq_handler` accepts the event (it changes the state, writing
`last_time`) if and only if `t_now - t_last > 250000`; otherwise it returns
the state unchanged. -/
theorem debounce_wraparound (s : State) (gpio events t_last t_now : Nat)
    (hl : s.last_time = t_last % 4294967296) (hle : t_last ≤ t_now)
    (hw : t_now - t_last < 4294967296) :
    subUInt32 (toUInt32 t_now) s.last_time = t_now - t_last
      ∧ (250000 < subUInt32 (toUInt32 t_now) s.last_time ↔ 250000 < t_now - t_last)
      ∧ (gpio_irq_handler s gpio events t_now ≠ s ↔ 250000 < t_now - t_last)
      ∧ (250000 < t_now - t_last →
          (gpio_irq_handler s gpio events t_now).last_time = t_now % 4294967296)
      ∧ (t_now - t_last ≤ 250000 → gpio_irq_handler s gpio events t_now = s) := by
  have hel : elapsed s t_now = t_now - t_last :=
    elapsed_of_true_times s t_last t_now hl hle hw
  have hel' : subUInt32 (toUInt32 t_now) s.last_time = t_now - t_last := hel
  have hlast : (gpio_irq_handler s gpio events t_now).last_time
      = if 250000 < elapsed s t_now then t_now % 4294967296 else s.last_time :=
    handle_last_time s (Irq.mk gpio events t_now)
  have hdrop : t_now - t_last ≤ 250000 → gpio_irq_handler s gpio events t_now = s := by
    intro h
    exact gpio_irq_handler_drop s gpio events t_now (by rw [hel]; exact h)
  have hacc : 250000 < t_now - t_last →
      (gpio_irq_handler s gpio events t_now).last_time = t_now % 4294967296 := by
    intro h
    rw [hlast, if_pos (by rw [hel]; exact h)]
  refine ⟨hel', by rw [hel'], ⟨?_, ?_⟩, hacc, hdrop⟩
  · intro hne
    by_contra hnot
    exact hne (hdrop (Nat.not_lt.mp hnot))
  · intro h heq
    have h1 := hacc h
    rw [heq, hl] at h1
    omega

theorem debounce_wraparound_witness :
    (gpio_irq_handler init btn_a 4 4294967196).last_time = 4294967196 % 4294967296
      ∧ 4294967196 ≤ 4295267296
      ∧ 4295267296 - 4294967196 < 4294967296
      ∧ subUInt32 (toUInt32 4295267296) (gpio_irq_handler init btn_a 4 4294967196).last_time
        = 4295267296 - 4294967196
      ∧ (gpio_irq_handler (gpio_irq_handler init btn_a 4 4294967196) btn_a 4 4295267296
          ≠ gpio_irq_handler init btn_a 4 4294967196
        ↔ 250000 < 4295267296 - 4294967196) :=
  have h := debounce_wraparound (gpio_irq_handler init btn_a 4 4294967196) btn_a 4
    4294967196 4295267296 (by decide) (by decide) (by decide)
  ⟨by decide, by decide, by decide, h.1, h.2.2.1⟩

end AdConverter
